import Mathlib

/-!
Shallow embedding of `src/js/WindowManager.js`, a browser window manager with a
single mutable registry (`state`): a list of open windows, the current maximum
z-index, the active window, and the in-flight drag record.  DOM elements are
modelled as an identity-indexed store `dom : Nat → Option Elem`; element
mutation is an update of that store.  The single asynchronous step (the content
fetch) is modelled by passing its outcome as an explicit `FetchResult`
argument.  Logging is ignored; numbers (z-index, coordinates) are modelled as
`Nat`/`Int` — none of the claims depend on floating point.
-/

/-- A JavaScript string-or-number geometry value, as accepted by the
`width`, `height`, `top`, `left`, `bottom`, `right` parameters. -/
inductive JSVal where
  | num : Int → JSVal
  | str : String → JSVal
deriving DecidableEq

/-- How `createWindow` turns a geometry value into a style string
(source lines 73-82): `typeof v === 'number'` gets a `px` suffix,
a string is passed through literally. -/
def cssValue : JSVal → String
  | JSVal.num n => toString n ++ "px"
  | JSVal.str v => v

/-- The shape of a fetched HTML fragment, as far as event wiring looks at it:
which of the optional regions (`.title-bar`, the Close control inside
`.title-bar-controls`, `.window-body`, `.status-bar`) are present. -/
structure Content where
  hasTitleBar : Bool
  hasCloseButton : Bool
  hasWindowBody : Bool
  hasStatusBar : Bool
deriving DecidableEq

/-- Outcome of the `fetch(appPath)` inside `createWindow` (source lines 63-65):
an ok response carrying the fragment, a non-ok HTTP response (the code throws
on `!response.ok`), or a network-level rejection of the fetch itself. -/
inductive FetchResult where
  | ok : Content → FetchResult
  | httpError : Nat → String → FetchResult
  | networkError : String → FetchResult
deriving DecidableEq

/-- True for the two fetch outcomes that make `createWindow` throw before any
element is created. -/
def FetchResult.isFailure : FetchResult → Bool
  | FetchResult.ok _ => false
  | FetchResult.httpError _ _ => true
  | FetchResult.networkError _ => true

/-- One window container element.  Style properties are the strings the code
assigns; `styleZIndex` is kept numeric (the code assigns a number).  The
`has*` fields record which child regions the fetched markup provides, the
`wired*` fields record which listeners `bindWindowEvents` attached, and
`titleBarInactive` models the `inactive` class on the `.title-bar` region.
`rectLeft`/`rectTop` are the layout position `getBoundingClientRect` reports;
layout itself is outside the embedding, so they are an uninterpreted stored
value (initially 0) and theorems quantify over arbitrary values. -/
structure Elem where
  windowId : String
  styleWidth : String
  styleMaxHeight : String
  styleTop : String
  styleLeft : String
  styleBottom : String
  styleRight : String
  styleZIndex : Nat
  hasTitleBar : Bool
  hasCloseButton : Bool
  hasWindowBody : Bool
  hasStatusBar : Bool
  titleBarInactive : Bool
  wiredTitleActivate : Bool
  wiredBodyActivate : Bool
  wiredStatusActivate : Bool
  wiredTitleMove : Bool
  wiredClose : Bool
  rectLeft : Int
  rectTop : Int
  attached : Bool
deriving DecidableEq

/-- The listener flags of an element, bundled for frame lemmas:
(title-bar activate, body activate, status-bar activate, title-bar drag,
close). -/
def Elem.wires (e : Elem) : Bool × Bool × Bool × Bool × Bool :=
  (e.wiredTitleActivate, e.wiredBodyActivate, e.wiredStatusActivate,
   e.wiredTitleMove, e.wiredClose)

/-- One entry of `state.windows`: `{id, element, appPath}` (source line 8). -/
structure WindowRec where
  id : String
  elemId : Nat
  appPath : String
deriving DecidableEq

/-- The `state.currentMove` record saved by `startMove` (source lines 205-212). -/
structure MoveInfo where
  windowElement : Nat
  startX : Int
  startY : Int
  windowStartX : Int
  windowStartY : Int
  isTouch : Bool
deriving DecidableEq

/-- The two stable handler functions `startMove` registers on `document`. -/
inductive DocHandler where
  | handleMoveH : DocHandler
  | endMoveH : DocHandler
deriving DecidableEq

/-- The whole manager state: the module-level `state` object plus the element
store, the document-level listener list, and two counters modelling fresh
element identity and fresh window-id generation. -/
structure WMState where
  dom : Nat → Option Elem
  windows : List WindowRec
  maxZIndex : Nat
  activeWindow : Option Nat
  currentMove : Option MoveInfo
  docListeners : List (String × DocHandler)
  nextElemId : Nat
  nextIdCounter : Nat

/-- The state at module load (source lines 7-12): no windows, `maxZIndex` 100,
no active window, no drag. -/
def initialState : WMState :=
  { dom := fun _ => none
    windows := []
    maxZIndex := 100
    activeWindow := none
    currentMove := none
    docListeners := []
    nextElemId := 0
    nextIdCounter := 0 }

/-- Overwrites the element stored at identity `eid`. -/
def setElem (s : WMState) (eid : Nat) (e : Elem) : WMState :=
  { s with dom := fun i => if i = eid then some e else s.dom i }

/-- Mutates the element at identity `eid` in place (a no-op if no element has
that identity, which cannot happen for a real element reference). -/
def modifyElem (s : WMState) (eid : Nat) (f : Elem → Elem) : WMState :=
  match s.dom eid with
  | none => s
  | some e => setElem s eid (f e)

/-- `win_${Date.now()}_${Math.random()...}` (source line 24): the two
nondeterministic sources are modelled by a fresh counter; what matters to the
program is that each generated id is fresh. -/
def generateWindowId (counter : Nat) : String :=
  "win_" ++ toString counter

/-- `titleBar.classList.add('inactive')` guarded by the `.title-bar` query
(source lines 164-169). -/
def markInactive (e : Elem) : Elem :=
  match e.hasTitleBar with
  | true => { e with titleBarInactive := true }
  | false => e

/-- `currentTitleBar.classList.remove('inactive')` guarded by the query
(source lines 172-175). -/
def markActive (e : Elem) : Elem :=
  match e.hasTitleBar with
  | true => { e with titleBarInactive := false }
  | false => e

/-- `windowElement.style.zIndex = n`. -/
def setZIndex (n : Nat) (e : Elem) : Elem :=
  { e with styleZIndex := n }

/-- The `state.windows.forEach` loop of `activateWindow` (source lines
164-169): adds the inactive marker to every registered window's title bar. -/
def markAllInactive (l : List WindowRec) (s : WMState) : WMState :=
  l.foldl (fun st w => modifyElem st w.elemId markInactive) s

/-- `activateWindow(windowElement)` (source lines 150-178): records the active
window, bumps `maxZIndex` by one and assigns it to the element, marks every
registered window's title bar inactive, then removes the marker from the
activated window's title bar. -/
def activateWindow (s : WMState) (eid : Nat) : WMState :=
  let s1 := { s with activeWindow := some eid, maxZIndex := s.maxZIndex + 1 }
  let s2 := modifyElem s1 eid (setZIndex s1.maxZIndex)
  let s3 := markAllInactive s2.windows s2
  modifyElem s3 eid markActive

/-- `bindWindowEvents(windowElement)` (source lines 300-357).  Returns the new
state and whether the function threw.  The source queries `.title-bar` and the
close control; a missing title bar logs and returns before anything is wired.
Otherwise it wires title-bar activation, then body activation, then — and this
reproduces the source's slip at lines 333-337 — it guards the status-bar
wiring with `if (windowBody)` while dereferencing `windowStatusBar`, so a
present body with an absent status bar throws a TypeError (after the
title-bar/body listeners were already attached).  After that, title-bar drag
and, when present, the close control are wired. -/
def bindWindowEvents (s : WMState) (eid : Nat) : WMState × Bool :=
  match s.dom eid with
  | none => (s, false)
  | some e0 =>
    match e0.hasTitleBar with
    | false => (s, false)
    | true =>
      let e1 := { e0 with wiredTitleActivate := true }
      let e2 :=
        match e1.hasWindowBody with
        | true => { e1 with wiredBodyActivate := true }
        | false => e1
      match e2.hasWindowBody && !e2.hasStatusBar with
      | true => (setElem s eid e2, true)
      | false =>
        let e3 :=
          match e2.hasWindowBody && e2.hasStatusBar with
          | true => { e2 with wiredStatusActivate := true }
          | false => e2
        let e4 := { e3 with wiredTitleMove := true }
        let e5 :=
          match e4.hasCloseButton with
          | true => { e4 with wiredClose := true }
          | false => e4
        (setElem s eid e5, false)

/-- The `if (checkDuplicate)` lookup of `createWindow` (source lines 53-60). -/
def duplicateLookup (s : WMState) (appPath : String) (checkDuplicate : Bool) :
    Option WindowRec :=
  match checkDuplicate with
  | true => s.windows.find? (fun w => w.appPath == appPath)
  | false => none

/-- The freshly constructed window element of `createWindow` (source lines
69-86): styled from the geometry parameters, z-index `maxZIndex + 1`, regions
taken from the fetched content, nothing wired yet, attached to the document. -/
def newElem (s : WMState) (content : Content)
    (width height top left bottom right : JSVal) : Elem :=
  { windowId := generateWindowId s.nextIdCounter
    styleWidth := cssValue width
    styleMaxHeight := cssValue height
    styleTop := cssValue top
    styleLeft := cssValue left
    styleBottom := cssValue bottom
    styleRight := cssValue right
    styleZIndex := s.maxZIndex + 1
    hasTitleBar := content.hasTitleBar
    hasCloseButton := content.hasCloseButton
    hasWindowBody := content.hasWindowBody
    hasStatusBar := content.hasStatusBar
    titleBarInactive := false
    wiredTitleActivate := false
    wiredBodyActivate := false
    wiredStatusActivate := false
    wiredTitleMove := false
    wiredClose := false
    rectLeft := 0
    rectTop := 0
    attached := true }

/-- The synchronous element-construction stage of `createWindow` (source lines
68-96): creates and styles the element, bumps `maxZIndex`, appends the element
to `document.body`, and pushes the `WindowRecord`. -/
def insertWindowStage (s : WMState) (appPath : String) (content : Content)
    (width height top left bottom right : JSVal) : WMState :=
  { s with
    dom := fun i =>
      if i = s.nextElemId then
        some (newElem s content width height top left bottom right)
      else s.dom i
    windows := s.windows ++
      [⟨generateWindowId s.nextIdCounter, s.nextElemId, appPath⟩]
    maxZIndex := s.maxZIndex + 1
    nextElemId := s.nextElemId + 1
    nextIdCounter := s.nextIdCounter + 1 }

/-- `createWindow(appPath, width, height, top, left, bottom, right,
checkDuplicate)` (source lines 39-107), with the fetch outcome passed
explicitly.  Returns the value the promise resolves to (the element's
identity, or `none` for the `catch` branch's `return null`) together with the
final state.  A duplicate hit activates and returns the existing window; a
fetch failure throws before any mutation, so the catch returns `null` with
the state untouched; a throw inside `bindWindowEvents` is caught the same
way but leaves the already-performed mutations (element attached, record
pushed) in place; otherwise the new window is activated and returned. -/
def createWindow (s : WMState) (appPath : String) (fetchResult : FetchResult)
    (width height top left bottom right : JSVal) (checkDuplicate : Bool) :
    Option Nat × WMState :=
  match duplicateLookup s appPath checkDuplicate with
  | some wrec => (some wrec.elemId, activateWindow s wrec.elemId)
  | none =>
    match fetchResult with
    | FetchResult.httpError _ _ => (none, s)
    | FetchResult.networkError _ => (none, s)
    | FetchResult.ok content =>
      let s2 := insertWindowStage s appPath content width height top left bottom right
      match bindWindowEvents s2 s.nextElemId with
      | (s3, true) => (none, s3)
      | (s3, false) => (some s.nextElemId, activateWindow s3 s.nextElemId)

/-- `createWindow(appPath)` with every optional parameter omitted: the source
defaults are the strings `'400'`, `'300'` and `'auto'` (source lines 41-46). -/
def createWindowDefaultArgs (s : WMState) (appPath : String)
    (fetchResult : FetchResult) : Option Nat × WMState :=
  createWindow s appPath fetchResult (JSVal.str "400") (JSVal.str "300")
    (JSVal.str "auto") (JSVal.str "auto") (JSVal.str "auto") (JSVal.str "auto")
    false

/-- The event object handed to `startMove`: a mousedown with client
coordinates, or a touchstart with its touch list. -/
inductive StartEvent where
  | mousedown : Int → Int → StartEvent
  | touchstart : List (Int × Int) → StartEvent
deriving DecidableEq

/-- `event.type === 'touchstart'` (source lines 196, 211). -/
def StartEvent.isTouchstart : StartEvent → Bool
  | StartEvent.touchstart _ => true
  | StartEvent.mousedown _ _ => false

/-- The clientX/clientY extraction of `startMove` (source lines 196-202):
`event.touches[0]` for a touchstart (undefined — a TypeError — when the touch
list is empty), `event.clientX`/`clientY` otherwise. -/
def StartEvent.coords : StartEvent → Option (Int × Int)
  | StartEvent.mousedown x y => some (x, y)
  | StartEvent.touchstart [] => none
  | StartEvent.touchstart (t :: _) => some t

/-- `document.addEventListener(type, handler)`: the DOM ignores a re-add of an
identical (type, listener) pair, so the pair is appended only when absent. -/
def addDocListener (s : WMState) (ty : String) (h : DocHandler) : WMState :=
  if (ty, h) ∈ s.docListeners then s
  else { s with docListeners := s.docListeners ++ [(ty, h)] }

/-- `document.removeEventListener(type, handler)`: removes the matching
registration, if any. -/
def removeDocListener (s : WMState) (ty : String) (h : DocHandler) : WMState :=
  { s with docListeners := s.docListeners.erase (ty, h) }

/-- `startMove(windowElement, event)` (source lines 185-220): activates the
window, captures the element's on-screen rectangle and the originating
coordinates into `state.currentMove` — with no check whether a drag is
already in flight — and installs the modality-scoped document listeners.
An empty touch list would make the source throw right after the activation
step, so that path returns the state as of the activation. -/
def startMove (s : WMState) (eid : Nat) (ev : StartEvent) : WMState :=
  let s1 := activateWindow s eid
  match s1.dom eid with
  | none => s1
  | some e =>
    match ev.coords with
    | none => s1
    | some p =>
      let mi : MoveInfo :=
        { windowElement := eid
          startX := p.1
          startY := p.2
          windowStartX := e.rectLeft
          windowStartY := e.rectTop
          isTouch := ev.isTouchstart }
      let s2 := { s1 with currentMove := some mi }
      let s3 := addDocListener s2
        (match ev.isTouchstart with | true => "touchmove" | false => "mousemove")
        DocHandler.handleMoveH
      addDocListener s3
        (match ev.isTouchstart with | true => "touchend" | false => "mouseup")
        DocHandler.endMoveH

/-- The event object handed to `handleMove`.  The source reads `touches` in
touch mode and `clientX`/`clientY` otherwise; the listener registration
guarantees each handler only ever receives an event of its own modality, so
both field groups are simply present here. -/
structure MoveEvent where
  clientX : Int
  clientY : Int
  touches : List (Int × Int)
deriving DecidableEq

/-- The coordinate extraction of `handleMove` (source lines 229-238): in touch
mode an empty touch list aborts, otherwise the first touch is used; in mouse
mode the client coordinates are used. -/
def moveCoords (isTouch : Bool) (ev : MoveEvent) : Option (Int × Int) :=
  match isTouch with
  | true =>
    match ev.touches with
    | [] => none
    | t :: _ => some t
  | false => some (ev.clientX, ev.clientY)

/-- `handleMove(event)` (source lines 226-247): a no-op without an active
drag; otherwise sets the dragged element's `left`/`top` styles to the window
start position plus the pointer delta, in pixels. -/
def handleMove (s : WMState) (ev : MoveEvent) : WMState :=
  match s.currentMove with
  | none => s
  | some m =>
    match moveCoords m.isTouch ev with
    | none => s
    | some c =>
      modifyElem s m.windowElement (fun e =>
        { e with
          styleLeft := toString (m.windowStartX + (c.1 - m.startX)) ++ "px"
          styleTop := toString (m.windowStartY + (c.2 - m.startY)) ++ "px" })

/-- `endMove()` (source lines 252-266): a no-op without an active drag;
otherwise removes the modality-scoped document listeners and clears
`state.currentMove`. -/
def endMove (s : WMState) : WMState :=
  match s.currentMove with
  | none => s
  | some m =>
    let s1 := removeDocListener s
      (match m.isTouch with | true => "touchmove" | false => "mousemove")
      DocHandler.handleMoveH
    let s2 := removeDocListener s1
      (match m.isTouch with | true => "touchend" | false => "mouseup")
      DocHandler.endMoveH
    { s2 with currentMove := none }

/-- The `findIndex`-then-`splice` removal of `closeWindow` (source lines
280-283): removes the first record whose element matches, or leaves the list
unchanged when none matches. -/
def removeWindowRec (l : List WindowRec) (eid : Nat) : List WindowRec :=
  match l.findIdx? (fun w => w.elemId == eid) with
  | none => l
  | some i => l.eraseIdx i

/-- `windowElement.remove()`: the element is detached from the document. -/
def detach (e : Elem) : Elem :=
  { e with attached := false }

/-- The unconditional first half of `closeWindow` (source lines 276-283):
detach the element and splice its record out of `state.windows`. -/
def removeAndDetach (s : WMState) (eid : Nat) : WMState :=
  let s1 := modifyElem s eid detach
  { s1 with windows := removeWindowRec s1.windows eid }

/-- `closeWindow(windowElement)` (source lines 272-294): detaches the element
and removes its registry record; when the closed window was the active one,
clears `state.activeWindow` and, if windows remain, activates the last one in
insertion order. -/
def closeWindow (s : WMState) (eid : Nat) : WMState :=
  let s2 := removeAndDetach s eid
  if s2.activeWindow = some eid then
    let s3 := { s2 with activeWindow := none }
    match s3.windows.getLast? with
    | none => s3
    | some w => activateWindow s3 w.elemId
  else s2

/-- Runs one registered document-level handler on an incoming event. -/
def runDocHandler (s : WMState) (h : DocHandler) (ev : MoveEvent) : WMState :=
  match h with
  | DocHandler.handleMoveH => handleMove s ev
  | DocHandler.endMoveH => endMove s

/-- Dispatch of a document-level event of the given type: every handler
registered for that type runs, in registration order. -/
def dispatchDoc (s : WMState) (ty : String) (ev : MoveEvent) : WMState :=
  (s.docListeners.filter (fun p => p.1 == ty)).foldl
    (fun st p => runDocHandler st p.2 ev) s

/-- Dispatch of a click (or touch-end) on a window's close control: the
close handler registered by `bindWindowEvents` (source lines 344-353) runs
only when that wiring actually happened. -/
def clickCloseButton (s : WMState) (eid : Nat) : WMState :=
  match s.dom eid with
  | none => s
  | some e =>
    match e.wiredClose with
    | true => closeWindow s eid
    | false => s

/-! ### Small frame lemmas about the state operations -/

theorem modifyElem_windows (s : WMState) (i : Nat) (f : Elem → Elem) :
    (modifyElem s i f).windows = s.windows := by
  unfold modifyElem setElem
  cases hd : s.dom i <;> simp [hd]

theorem modifyElem_activeWindow (s : WMState) (i : Nat) (f : Elem → Elem) :
    (modifyElem s i f).activeWindow = s.activeWindow := by
  unfold modifyElem setElem
  cases hd : s.dom i <;> simp [hd]

theorem modifyElem_maxZIndex (s : WMState) (i : Nat) (f : Elem → Elem) :
    (modifyElem s i f).maxZIndex = s.maxZIndex := by
  unfold modifyElem setElem
  cases hd : s.dom i <;> simp [hd]

theorem modifyElem_currentMove (s : WMState) (i : Nat) (f : Elem → Elem) :
    (modifyElem s i f).currentMove = s.currentMove := by
  unfold modifyElem setElem
  cases hd : s.dom i <;> simp [hd]

theorem modifyElem_docListeners (s : WMState) (i : Nat) (f : Elem → Elem) :
    (modifyElem s i f).docListeners = s.docListeners := by
  unfold modifyElem setElem
  cases hd : s.dom i <;> simp [hd]

theorem modifyElem_dom_ne (s : WMState) (i : Nat) (f : Elem → Elem) (x : Nat)
    (hx : x ≠ i) : (modifyElem s i f).dom x = s.dom x := by
  unfold modifyElem setElem
  cases hd : s.dom i <;> simp [hd, hx]

theorem modifyElem_dom_self (s : WMState) (i : Nat) (f : Elem → Elem) (e : Elem)
    (h : s.dom i = some e) : (modifyElem s i f).dom i = some (f e) := by
  unfold modifyElem setElem
  simp [h]

theorem modifyElem_dom_isSome (s : WMState) (i : Nat) (f : Elem → Elem) (x : Nat) :
    ((modifyElem s i f).dom x).isSome = (s.dom x).isSome := by
  unfold modifyElem setElem
  cases hd : s.dom i with
  | none => rfl
  | some e =>
    by_cases hx : x = i
    · subst hx; simp [hd]
    · simp [hx]

theorem modifyElem_dom_map {α : Type} (s : WMState) (i : Nat) (f : Elem → Elem)
    (x : Nat) (g : Elem → α) (hf : ∀ e, g (f e) = g e) :
    ((modifyElem s i f).dom x).map g = (s.dom x).map g := by
  unfold modifyElem setElem
  cases hd : s.dom i with
  | none => rfl
  | some e =>
    by_cases hx : x = i
    · subst hx; simp [hd, hf]
    · simp [hx]

theorem markAllInactive_cons (w : WindowRec) (t : List WindowRec) (s : WMState) :
    markAllInactive (w :: t) s
      = markAllInactive t (modifyElem s w.elemId markInactive) := rfl

theorem markAllInactive_windows (l : List WindowRec) (s : WMState) :
    (markAllInactive l s).windows = s.windows := by
  induction l generalizing s with
  | nil => rfl
  | cons w t ih => rw [markAllInactive_cons, ih, modifyElem_windows]

theorem markAllInactive_activeWindow (l : List WindowRec) (s : WMState) :
    (markAllInactive l s).activeWindow = s.activeWindow := by
  induction l generalizing s with
  | nil => rfl
  | cons w t ih => rw [markAllInactive_cons, ih, modifyElem_activeWindow]

theorem markAllInactive_maxZIndex (l : List WindowRec) (s : WMState) :
    (markAllInactive l s).maxZIndex = s.maxZIndex := by
  induction l generalizing s with
  | nil => rfl
  | cons w t ih => rw [markAllInactive_cons, ih, modifyElem_maxZIndex]

theorem markAllInactive_currentMove (l : List WindowRec) (s : WMState) :
    (markAllInactive l s).currentMove = s.currentMove := by
  induction l generalizing s with
  | nil => rfl
  | cons w t ih => rw [markAllInactive_cons, ih, modifyElem_currentMove]

theorem markAllInactive_docListeners (l : List WindowRec) (s : WMState) :
    (markAllInactive l s).docListeners = s.docListeners := by
  induction l generalizing s with
  | nil => rfl
  | cons w t ih => rw [markAllInactive_cons, ih, modifyElem_docListeners]

theorem markAllInactive_dom_isSome (l : List WindowRec) (s : WMState) (x : Nat) :
    ((markAllInactive l s).dom x).isSome = (s.dom x).isSome := by
  induction l generalizing s with
  | nil => rfl
  | cons w t ih => rw [markAllInactive_cons, ih, modifyElem_dom_isSome]

theorem markAllInactive_dom_map {α : Type} (l : List WindowRec) (s : WMState)
    (x : Nat) (g : Elem → α) (hg : ∀ e, g (markInactive e) = g e) :
    ((markAllInactive l s).dom x).map g = (s.dom x).map g := by
  induction l generalizing s with
  | nil => rfl
  | cons w t ih => rw [markAllInactive_cons, ih, modifyElem_dom_map _ _ _ _ g hg]

theorem markInactive_styleZIndex (e : Elem) :
    (markInactive e).styleZIndex = e.styleZIndex := by
  unfold markInactive
  cases e.hasTitleBar <;> rfl

theorem markActive_styleZIndex (e : Elem) :
    (markActive e).styleZIndex = e.styleZIndex := by
  unfold markActive
  cases e.hasTitleBar <;> rfl

theorem markInactive_wires (e : Elem) : (markInactive e).wires = e.wires := by
  unfold markInactive
  cases e.hasTitleBar <;> rfl

theorem markActive_wires (e : Elem) : (markActive e).wires = e.wires := by
  unfold markActive
  cases e.hasTitleBar <;> rfl

theorem setZIndex_wires (n : Nat) (e : Elem) : (setZIndex n e).wires = e.wires := rfl

/-! ### Lemmas about `activateWindow` -/

theorem activateWindow_activeWindow (s : WMState) (i : Nat) :
    (activateWindow s i).activeWindow = some i := by
  unfold activateWindow
  rw [modifyElem_activeWindow, markAllInactive_activeWindow, modifyElem_activeWindow]

theorem activateWindow_maxZIndex (s : WMState) (i : Nat) :
    (activateWindow s i).maxZIndex = s.maxZIndex + 1 := by
  unfold activateWindow
  rw [modifyElem_maxZIndex, markAllInactive_maxZIndex, modifyElem_maxZIndex]

theorem activateWindow_windows (s : WMState) (i : Nat) :
    (activateWindow s i).windows = s.windows := by
  unfold activateWindow
  rw [modifyElem_windows, markAllInactive_windows, modifyElem_windows]

theorem activateWindow_currentMove (s : WMState) (i : Nat) :
    (activateWindow s i).currentMove = s.currentMove := by
  unfold activateWindow
  rw [modifyElem_currentMove, markAllInactive_currentMove, modifyElem_currentMove]

theorem activateWindow_dom_isSome (s : WMState) (i : Nat) (x : Nat) :
    ((activateWindow s i).dom x).isSome = (s.dom x).isSome := by
  unfold activateWindow
  rw [modifyElem_dom_isSome, markAllInactive_dom_isSome, modifyElem_dom_isSome]

theorem activateWindow_dom_wires (s : WMState) (i : Nat) (x : Nat) :
    ((activateWindow s i).dom x).map Elem.wires = (s.dom x).map Elem.wires := by
  unfold activateWindow
  rw [modifyElem_dom_map _ _ _ _ Elem.wires markActive_wires,
    markAllInactive_dom_map _ _ _ Elem.wires markInactive_wires,
    modifyElem_dom_map _ _ _ _ Elem.wires (setZIndex_wires _)]

theorem activateWindow_dom_self_styleZIndex (s : WMState) (i : Nat) (e : Elem)
    (h : s.dom i = some e) :
    ((activateWindow s i).dom i).map Elem.styleZIndex = some (s.maxZIndex + 1) := by
  unfold activateWindow
  rw [modifyElem_dom_map _ _ _ _ Elem.styleZIndex markActive_styleZIndex,
    markAllInactive_dom_map _ _ _ Elem.styleZIndex markInactive_styleZIndex]
  have h2 : ({ s with activeWindow := some i, maxZIndex := s.maxZIndex + 1 } : WMState).dom i = some e := h
  rw [modifyElem_dom_self _ _ _ e h2]
  rfl

theorem setElem_dom_isSome (s : WMState) (i : Nat) (e : Elem) (x : Nat)
    (h : (s.dom i).isSome = true) :
    ((setElem s i e).dom x).isSome = (s.dom x).isSome := by
  unfold setElem
  by_cases hx : x = i
  · subst hx; simp [h]
  · simp [hx]

/-! ### Lemmas about `bindWindowEvents` -/

theorem bindWindowEvents_fst_maxZIndex (s : WMState) (i : Nat) :
    (bindWindowEvents s i).1.maxZIndex = s.maxZIndex := by
  unfold bindWindowEvents
  split
  · rfl
  · split
    · rfl
    · dsimp only
      split
      · rfl
      · rfl

theorem bindWindowEvents_fst_dom_isSome (s : WMState) (i : Nat) (x : Nat) :
    ((bindWindowEvents s i).1.dom x).isSome = (s.dom x).isSome := by
  unfold bindWindowEvents
  split
  · rfl
  · rename_i e0 hd
    split
    · rfl
    · dsimp only
      split
      · exact setElem_dom_isSome s i _ x (by rw [hd]; rfl)
      · exact setElem_dom_isSome s i _ x (by rw [hd]; rfl)

theorem bindWindowEvents_no_titleBar (s : WMState) (i : Nat) (e : Elem)
    (hd : s.dom i = some e) (ht : e.hasTitleBar = false) :
    bindWindowEvents s i = (s, false) := by
  unfold bindWindowEvents
  rw [hd]
  dsimp only
  rw [ht]

/-! ### Lemmas about `insertWindowStage` -/

theorem insertWindowStage_maxZIndex (s : WMState) (appPath : String) (c : Content)
    (w h t l b r : JSVal) :
    (insertWindowStage s appPath c w h t l b r).maxZIndex = s.maxZIndex + 1 := rfl

theorem insertWindowStage_dom_self (s : WMState) (appPath : String) (c : Content)
    (w h t l b r : JSVal) :
    (insertWindowStage s appPath c w h t l b r).dom s.nextElemId
      = some (newElem s c w h t l b r) := by
  unfold insertWindowStage
  simp

/-! ### Lemmas about the drag controller and document dispatch -/

theorem addDocListener_currentMove (s : WMState) (ty : String) (h : DocHandler) :
    (addDocListener s ty h).currentMove = s.currentMove := by
  unfold addDocListener
  split <;> rfl

theorem endMove_currentMove (s : WMState) : (endMove s).currentMove = none := by
  unfold endMove
  cases hm : s.currentMove with
  | none => exact hm
  | some m => rfl

theorem endMove_of_none (s : WMState) (h : s.currentMove = none) : endMove s = s := by
  unfold endMove
  rw [h]

theorem handleMove_of_none (s : WMState) (ev : MoveEvent)
    (h : s.currentMove = none) : handleMove s ev = s := by
  unfold handleMove
  rw [h]

theorem runDocHandler_of_none (s : WMState) (h : DocHandler) (ev : MoveEvent)
    (hn : s.currentMove = none) : runDocHandler s h ev = s := by
  cases h with
  | handleMoveH => exact handleMove_of_none s ev hn
  | endMoveH => exact endMove_of_none s hn

theorem foldl_runDocHandler_of_none (l : List (String × DocHandler)) (s : WMState)
    (ev : MoveEvent) (hn : s.currentMove = none) :
    l.foldl (fun st p => runDocHandler st p.2 ev) s = s := by
  induction l with
  | nil => rfl
  | cons p t ih =>
    rw [List.foldl_cons, runDocHandler_of_none s p.2 ev hn]
    exact ih

theorem dispatchDoc_of_none (s : WMState) (ty : String) (ev : MoveEvent)
    (hn : s.currentMove = none) : dispatchDoc s ty ev = s := by
  unfold dispatchDoc
  exact foldl_runDocHandler_of_none _ s ev hn

/-! ### Lemmas about `removeAndDetach` -/

theorem removeAndDetach_activeWindow (s : WMState) (i : Nat) :
    (removeAndDetach s i).activeWindow = s.activeWindow := by
  unfold removeAndDetach
  dsimp only
  exact modifyElem_activeWindow s i detach

theorem removeAndDetach_maxZIndex (s : WMState) (i : Nat) :
    (removeAndDetach s i).maxZIndex = s.maxZIndex := by
  unfold removeAndDetach
  dsimp only
  exact modifyElem_maxZIndex s i detach

theorem removeAndDetach_currentMove (s : WMState) (i : Nat) :
    (removeAndDetach s i).currentMove = s.currentMove := by
  unfold removeAndDetach
  dsimp only
  exact modifyElem_currentMove s i detach

theorem removeAndDetach_windows (s : WMState) (i : Nat) :
    (removeAndDetach s i).windows = removeWindowRec s.windows i := by
  unfold removeAndDetach
  dsimp only
  rw [modifyElem_windows]

theorem removeAndDetach_dom_ne (s : WMState) (i : Nat) (x : Nat) (hx : x ≠ i) :
    (removeAndDetach s i).dom x = s.dom x := by
  unfold removeAndDetach
  dsimp only
  exact modifyElem_dom_ne s i detach x hx

/-- Helper for the close control: an element with no wired listeners ignores a
click on its close control. -/
theorem clickCloseButton_of_wires_false (s : WMState) (i : Nat)
    (hw : (s.dom i).map Elem.wires = some (false, false, false, false, false)) :
    clickCloseButton s i = s := by
  unfold clickCloseButton
  cases hd : s.dom i with
  | none => rfl
  | some e =>
    rw [hd] at hw
    have h5 : e.wiredClose = false := by
      have hq := Option.some.inj hw
      exact congrArg (fun q => q.2.2.2.2) hq
    dsimp only
    rw [h5]

/-! ### Concrete fixtures -/

/-- A fragment providing every optional region. -/
def fullContent : Content := ⟨true, true, true, true⟩

/-- A fragment with a title bar, close control and body, but no status bar. -/
def noStatusBarContent : Content := ⟨true, true, true, false⟩

/-- A fragment with no title bar but with a close control, body and status bar. -/
def noTitleBarContent : Content := ⟨false, true, true, true⟩

/-- The `'auto'` geometry value. -/
def autoV : JSVal := JSVal.str "auto"

/-- Element of an open window `win_0` (z-index 102, currently inactive). -/
def sampleElem : Elem :=
  { windowId := "win_0"
    styleWidth := "400px"
    styleMaxHeight := "300px"
    styleTop := "auto"
    styleLeft := "auto"
    styleBottom := "auto"
    styleRight := "auto"
    styleZIndex := 102
    hasTitleBar := true
    hasCloseButton := true
    hasWindowBody := true
    hasStatusBar := true
    titleBarInactive := true
    wiredTitleActivate := true
    wiredBodyActivate := true
    wiredStatusActivate := true
    wiredTitleMove := true
    wiredClose := true
    rectLeft := 10
    rectTop := 20
    attached := true }

/-- Element of a second open window `win_1` (z-index 104, currently active). -/
def sampleElem2 : Elem :=
  { sampleElem with
    windowId := "win_1"
    styleZIndex := 104
    titleBarInactive := false
    rectLeft := 30
    rectTop := 40 }

/-- A state with two open windows, as after creating `/a` and then `/b`:
window 1 is focused, `maxZIndex` is 104. -/
def twoWinState : WMState :=
  { dom := fun i => if i = 0 then some sampleElem
      else if i = 1 then some sampleElem2 else none
    windows := [⟨"win_0", 0, "/a"⟩, ⟨"win_1", 1, "/b"⟩]
    maxZIndex := 104
    activeWindow := some 1
    currentMove := none
    docListeners := []
    nextElemId := 2
    nextIdCounter := 2 }

/-- A drag of window 0 in progress: pointer started at (5, 7), the window's
rectangle started at (10, 20), mouse modality. -/
def dragInfo : MoveInfo := ⟨0, 5, 7, 10, 20, false⟩

/-- `twoWinState` during a mouse drag of window 0 (window 0 was activated by
the drag start, and the global move/up listeners are installed). -/
def dragState : WMState :=
  { twoWinState with
    activeWindow := some 0
    currentMove := some dragInfo
    docListeners := [("mousemove", DocHandler.handleMoveH),
      ("mouseup", DocHandler.endMoveH)] }

/-- The mouse-move event used by the drag witness. -/
def evC8 : MoveEvent := ⟨9, 12, []⟩

/-! ### C4 — fetch failure aborts cleanly -/

/-- C4: when the fetch yields a non-success response or fails at the network
level (and the duplicate shortcut was not taken), `createWindow` returns null
without throwing and the whole state — registry, DOM store, everything — is
exactly unchanged. -/
theorem createWindow_fetch_failure_clean (s : WMState) (appPath : String)
    (fr : FetchResult) (w h t l b r : JSVal) (cd : Bool)
    (hfr : fr.isFailure = true)
    (hdup : duplicateLookup s appPath cd = none) :
    createWindow s appPath fr w h t l b r cd = (none, s) := by
  unfold createWindow
  rw [hdup]
  cases fr with
  | ok c => exact Bool.noConfusion hfr
  | httpError n tx => rfl
  | networkError msg => rfl

theorem createWindow_fetch_failure_clean_witness :
    (FetchResult.httpError 404 "Not Found").isFailure = true
    ∧ duplicateLookup initialState "/a" false = none
    ∧ createWindow initialState "/a" (FetchResult.httpError 404 "Not Found")
        autoV autoV autoV autoV autoV autoV false = (none, initialState) :=
  ⟨rfl, rfl, createWindow_fetch_failure_clean initialState "/a"
    (FetchResult.httpError 404 "Not Found") autoV autoV autoV autoV autoV autoV
    false rfl rfl⟩

/-! ### C5 — duplicate detection returns the existing window -/

/-- C5: when `checkDuplicate` is true and some registry record already has the
requested `appPath`, `createWindow` returns that record's element after merely
activating it: the window count is unchanged and the existing window becomes
the focused one. -/
theorem createWindow_duplicate_returns_existing (s : WMState) (appPath : String)
    (fr : FetchResult) (w h t l b r : JSVal) (wrec : WindowRec)
    (hfind : s.windows.find? (fun x => x.appPath == appPath) = some wrec) :
    createWindow s appPath fr w h t l b r true
      = (some wrec.elemId, activateWindow s wrec.elemId)
    ∧ (createWindow s appPath fr w h t l b r true).2.windows.length
        = s.windows.length
    ∧ (createWindow s appPath fr w h t l b r true).2.activeWindow
        = some wrec.elemId := by
  have h1 : createWindow s appPath fr w h t l b r true
      = (some wrec.elemId, activateWindow s wrec.elemId) := by
    unfold createWindow duplicateLookup
    rw [hfind]
  refine ⟨h1, ?_, ?_⟩
  · rw [h1]
    dsimp only
    rw [activateWindow_windows]
  · rw [h1]
    dsimp only
    rw [activateWindow_activeWindow]

theorem createWindow_duplicate_returns_existing_witness :
    twoWinState.windows.find? (fun x => x.appPath == "/a")
      = some ⟨"win_0", 0, "/a"⟩
    ∧ (createWindow twoWinState "/a" (FetchResult.networkError "offline") autoV
        autoV autoV autoV autoV autoV true
        = (some 0, activateWindow twoWinState 0)
      ∧ (createWindow twoWinState "/a" (FetchResult.networkError "offline") autoV
          autoV autoV autoV autoV autoV true).2.windows.length
          = twoWinState.windows.length
      ∧ (createWindow twoWinState "/a" (FetchResult.networkError "offline") autoV
          autoV autoV autoV autoV autoV true).2.activeWindow = some 0) :=
  ⟨rfl, createWindow_duplicate_returns_existing twoWinState "/a"
    (FetchResult.networkError "offline") autoV autoV autoV autoV autoV autoV
    ⟨"win_0", 0, "/a"⟩ rfl⟩

/-! ### C3 — missing status bar: the wiring throws and creation fails -/

/-- C3 (code bug): a fragment with a title bar and a body but no status bar
makes `bindWindowEvents` dereference the absent status bar (its guard tests
the body instead), so `createWindow` catches a TypeError and returns null —
while the half-initialized window stays attached to the document and
registered. The claim (and the spec intent of tolerating an absent
status bar) says creation should have succeeded and returned the element. -/
theorem createWindow_missing_statusBar_fails_and_leaks :
    (createWindow initialState "/a" (FetchResult.ok noStatusBarContent) autoV
        autoV autoV autoV autoV autoV false).1 = none
    ∧ (createWindow initialState "/a" (FetchResult.ok noStatusBarContent) autoV
        autoV autoV autoV autoV autoV false).2.windows.length = 1
    ∧ ((createWindow initialState "/a" (FetchResult.ok noStatusBarContent) autoV
        autoV autoV autoV autoV autoV false).2.dom 0).map Elem.attached
        = some true :=
  ⟨rfl, rfl, rfl⟩

/-! ### C7 — default geometry values are unitless strings -/

/-- C7 (code bug): with every geometry parameter omitted the defaults are the
strings `'400'` and `'300'`, which are passed through literally: the created
element's width style is the unit-less string `"400"` and its max-height
style `"300"`, not the pixel lengths `"400px"`/`"300px"` that the claim (and
the code's own JSDoc default of 400) intends. -/
theorem createWindowDefaultArgs_unitless_default_styles :
    (createWindowDefaultArgs initialState "/a" (FetchResult.ok fullContent)).1
      = some 0
    ∧ ((createWindowDefaultArgs initialState "/a"
        (FetchResult.ok fullContent)).2.dom 0).map
        (fun e => (e.styleWidth, e.styleMaxHeight)) = some ("400", "300")
    ∧ (some ("400", "300") : Option (String × String)) ≠ some ("400px", "300px") :=
  ⟨rfl, rfl, by decide⟩

/-! ### C1 — stacking order of a newly created window -/

/-- C1 counterexample: from the initial state (`maxZIndex` 100) a successful
`createWindow` returns a window whose z-index is 102, not the 101 the claim
states: the element is styled with `maxZIndex + 1`, and the focus step at the
end of creation bumps `maxZIndex` once more and restyles the element. -/
theorem createWindow_initial_zindex_is_102 :
    (createWindow initialState "/apps/notes.html" (FetchResult.ok fullContent)
        (JSVal.num 400) (JSVal.num 300) autoV autoV autoV autoV false).1 = some 0
    ∧ ((createWindow initialState "/apps/notes.html" (FetchResult.ok fullContent)
        (JSVal.num 400) (JSVal.num 300) autoV autoV autoV autoV false).2.dom
        0).map Elem.styleZIndex = some 102
    ∧ ((createWindow initialState "/apps/notes.html" (FetchResult.ok fullContent)
        (JSVal.num 400) (JSVal.num 300) autoV autoV autoV autoV false).2.dom
        0).map Elem.styleZIndex ≠ some 101 := by
  have h102 : ((createWindow initialState "/apps/notes.html"
      (FetchResult.ok fullContent) (JSVal.num 400) (JSVal.num 300) autoV autoV
      autoV autoV false).2.dom 0).map Elem.styleZIndex = some 102 := rfl
  refine ⟨rfl, h102, ?_⟩
  rw [h102]
  decide

/-- C1 amended: after a successful non-duplicate `createWindow`, the new
window's stacking value is the prior `maxZIndex` plus two (one increment when
the element is styled, a second from the closing focus step), and it equals
the final `maxZIndex`. -/
theorem createWindow_new_window_zindex_prior_plus_two (s : WMState)
    (appPath : String) (c : Content) (w h t l b r : JSVal) (eid : Nat)
    (s' : WMState)
    (hres : createWindow s appPath (FetchResult.ok c) w h t l b r false
      = (some eid, s')) :
    (s'.dom eid).map Elem.styleZIndex = some (s.maxZIndex + 2)
    ∧ s'.maxZIndex = s.maxZIndex + 2 := by
  unfold createWindow duplicateLookup at hres
  dsimp only at hres
  cases hbe : bindWindowEvents (insertWindowStage s appPath c w h t l b r)
      s.nextElemId with
  | mk s3 threw =>
    rw [hbe] at hres
    cases threw with
    | true =>
      dsimp only at hres
      injection hres with h1 h2
      exact Option.noConfusion h1
    | false =>
      dsimp only at hres
      injection hres with h1 h2
      have heid : eid = s.nextElemId := (Option.some.inj h1).symm
      subst heid
      subst h2
      have hZ3 : s3.maxZIndex = s.maxZIndex + 1 := by
        have hb := bindWindowEvents_fst_maxZIndex
          (insertWindowStage s appPath c w h t l b r) s.nextElemId
        rw [hbe] at hb
        exact hb
      have hS3 : (s3.dom s.nextElemId).isSome = true := by
        have hb := bindWindowEvents_fst_dom_isSome
          (insertWindowStage s appPath c w h t l b r) s.nextElemId s.nextElemId
        rw [hbe] at hb
        rw [hb, insertWindowStage_dom_self]
        rfl
      obtain ⟨e3, he3⟩ := Option.isSome_iff_exists.mp hS3
      constructor
      · rw [activateWindow_dom_self_styleZIndex s3 s.nextElemId e3 he3, hZ3]
      · rw [activateWindow_maxZIndex, hZ3]

/-- State after the witness call of C1's amended theorem. -/
def c1wState : WMState :=
  (createWindow initialState "/a" (FetchResult.ok fullContent) autoV autoV autoV
    autoV autoV autoV false).2

theorem createWindow_new_window_zindex_prior_plus_two_witness :
    createWindow initialState "/a" (FetchResult.ok fullContent) autoV autoV autoV
        autoV autoV autoV false = (some 0, c1wState)
    ∧ ((c1wState.dom 0).map Elem.styleZIndex = some (initialState.maxZIndex + 2)
      ∧ c1wState.maxZIndex = initialState.maxZIndex + 2) :=
  ⟨rfl, createWindow_new_window_zindex_prior_plus_two initialState "/a"
    fullContent autoV autoV autoV autoV autoV autoV 0 c1wState rfl⟩

/-! ### C2 — startMove does not enforce drag exclusivity -/

/-- C2 counterexample: with a mouse drag of window 0 already recorded in
`currentMove`, a `startMove` on window 1 replaces the active drag record with
one for window 1 — the claim that the existing record is not replaced while a
drag is in progress is false. -/
theorem startMove_overwrites_active_drag_counterexample :
    dragState.currentMove.map MoveInfo.windowElement = some 0
    ∧ (startMove dragState 1 (StartEvent.mousedown 50 60)).currentMove.map
        MoveInfo.windowElement = some 1 :=
  ⟨rfl, rfl⟩

/-- C2 amended: `startMove` never checks for an in-flight drag: whenever the
window element exists and the triggering event carries coordinates, it
installs a fresh `currentMove` record for the given window, replacing any
active one; exclusivity is only an assumption about single-pointer input. -/
theorem startMove_unconditionally_installs_new_drag (s : WMState) (eid : Nat)
    (m : MoveInfo) (ev : StartEvent) (p : Int × Int)
    (hdrag : s.currentMove = some m)
    (hdom : (s.dom eid).isSome = true)
    (hev : ev.coords = some p) :
    (startMove s eid ev).currentMove.map MoveInfo.windowElement = some eid := by
  unfold startMove
  dsimp only
  have h1 : ((activateWindow s eid).dom eid).isSome = true := by
    rw [activateWindow_dom_isSome]
    exact hdom
  obtain ⟨e, he⟩ := Option.isSome_iff_exists.mp h1
  rw [he]
  dsimp only
  rw [hev]
  dsimp only
  rw [addDocListener_currentMove, addDocListener_currentMove]
  rfl

theorem startMove_unconditionally_installs_new_drag_witness :
    dragState.currentMove = some dragInfo
    ∧ (dragState.dom 1).isSome = true
    ∧ (StartEvent.mousedown 50 60).coords = some (50, 60)
    ∧ (startMove dragState 1 (StartEvent.mousedown 50 60)).currentMove.map
        MoveInfo.windowElement = some 1 :=
  ⟨rfl, rfl, rfl, startMove_unconditionally_installs_new_drag dragState 1
    dragInfo (StartEvent.mousedown 50 60) (50, 60) rfl rfl rfl⟩

/-! ### C6 — missing title bar skips every wire, including the close control -/

/-- C6 counterexample: for a fragment with a close control but no title bar,
creation succeeds but nothing at all is wired — in particular the close
control is not wired, so activating it does not close the window (the
registry keeps its entry and the element stays attached). -/
theorem createWindow_no_titleBar_close_not_wired_counterexample :
    (createWindow initialState "/a" (FetchResult.ok noTitleBarContent) autoV
        autoV autoV autoV autoV autoV false).1 = some 0
    ∧ ((createWindow initialState "/a" (FetchResult.ok noTitleBarContent) autoV
        autoV autoV autoV autoV autoV false).2.dom 0).map Elem.wires
        = some (false, false, false, false, false)
    ∧ (clickCloseButton (createWindow initialState "/a"
        (FetchResult.ok noTitleBarContent) autoV autoV autoV autoV autoV autoV
        false).2 0).windows.length = 1
    ∧ ((clickCloseButton (createWindow initialState "/a"
        (FetchResult.ok noTitleBarContent) autoV autoV autoV autoV autoV autoV
        false).2 0).dom 0).map Elem.attached = some true :=
  ⟨rfl, rfl, rfl, rfl⟩

/-- C6 amended: when the fetched fragment has no title bar, `bindWindowEvents`
logs and returns before wiring anything, so window creation still succeeds
and returns the element, but no listener at all is wired — the close control
included, so a click on it does not close the window. -/
theorem createWindow_no_titleBar_skips_all_wiring (s : WMState)
    (appPath : String) (c : Content) (w h t l b r : JSVal)
    (hc : c.hasTitleBar = false) :
    (createWindow s appPath (FetchResult.ok c) w h t l b r false).1
        = some s.nextElemId
    ∧ ((createWindow s appPath (FetchResult.ok c) w h t l b r false).2.dom
        s.nextElemId).map Elem.wires = some (false, false, false, false, false)
    ∧ clickCloseButton
        (createWindow s appPath (FetchResult.ok c) w h t l b r false).2
        s.nextElemId
      = (createWindow s appPath (FetchResult.ok c) w h t l b r false).2 := by
  have hbind : bindWindowEvents (insertWindowStage s appPath c w h t l b r)
      s.nextElemId = (insertWindowStage s appPath c w h t l b r, false) :=
    bindWindowEvents_no_titleBar _ _ _
      (insertWindowStage_dom_self s appPath c w h t l b r) hc
  have hcw : createWindow s appPath (FetchResult.ok c) w h t l b r false
      = (some s.nextElemId,
        activateWindow (insertWindowStage s appPath c w h t l b r)
          s.nextElemId) := by
    unfold createWindow duplicateLookup
    dsimp only
    rw [hbind]
  have hwires : ((createWindow s appPath (FetchResult.ok c) w h t l b r
      false).2.dom s.nextElemId).map Elem.wires
      = some (false, false, false, false, false) := by
    rw [hcw]
    dsimp only
    rw [activateWindow_dom_wires, insertWindowStage_dom_self]
    rfl
  refine ⟨by rw [hcw], hwires, ?_⟩
  exact clickCloseButton_of_wires_false _ _ hwires

theorem createWindow_no_titleBar_skips_all_wiring_witness :
    noTitleBarContent.hasTitleBar = false
    ∧ ((createWindow initialState "/a" (FetchResult.ok noTitleBarContent) autoV
        autoV autoV autoV autoV autoV false).1 = some initialState.nextElemId
      ∧ ((createWindow initialState "/a" (FetchResult.ok noTitleBarContent)
          autoV autoV autoV autoV autoV autoV false).2.dom
          initialState.nextElemId).map Elem.wires
          = some (false, false, false, false, false)
      ∧ clickCloseButton (createWindow initialState "/a"
          (FetchResult.ok noTitleBarContent) autoV autoV autoV autoV autoV autoV
          false).2 initialState.nextElemId
        = (createWindow initialState "/a" (FetchResult.ok noTitleBarContent)
          autoV autoV autoV autoV autoV autoV false).2) :=
  ⟨rfl, createWindow_no_titleBar_skips_all_wiring initialState "/a"
    noTitleBarContent autoV autoV autoV autoV autoV autoV rfl⟩

/-! ### C8 — drag moves by the pointer delta; endMove leaves nothing behind -/

/-- C8: within a drag session, a `handleMove` whose event carries coordinates
`c` sets the dragged window's left/top styles to the recorded window start
plus the pointer delta, in pixels; and after `endMove`, dispatching any
document-level event produces no state change at all (no residual listener
moves anything: `currentMove` is cleared, and both handlers ignore events
without an active drag). -/
theorem handleMove_sets_position_and_endMove_clean (s : WMState) (m : MoveInfo)
    (e : Elem) (ev : MoveEvent) (c : Int × Int)
    (hm : s.currentMove = some m)
    (he : s.dom m.windowElement = some e)
    (hc : moveCoords m.isTouch ev = some c) :
    (handleMove s ev).dom m.windowElement
      = some { e with
          styleLeft := toString (m.windowStartX + (c.1 - m.startX)) ++ "px"
          styleTop := toString (m.windowStartY + (c.2 - m.startY)) ++ "px" }
    ∧ ∀ (s2 : WMState) (ty : String) (ev2 : MoveEvent),
        dispatchDoc (endMove s2) ty ev2 = endMove s2 := by
  constructor
  · unfold handleMove
    rw [hm]
    dsimp only
    rw [hc]
    exact modifyElem_dom_self s m.windowElement _ e he
  · intro s2 ty ev2
    exact dispatchDoc_of_none _ ty ev2 (endMove_currentMove s2)

theorem handleMove_sets_position_and_endMove_clean_witness :
    dragState.currentMove = some dragInfo
    ∧ dragState.dom dragInfo.windowElement = some sampleElem
    ∧ moveCoords dragInfo.isTouch evC8 = some (9, 12)
    ∧ ((handleMove dragState evC8).dom dragInfo.windowElement
        = some { sampleElem with
            styleLeft := toString ((10 : Int) + (9 - 5)) ++ "px"
            styleTop := toString ((20 : Int) + (12 - 7)) ++ "px" }
      ∧ ∀ (s2 : WMState) (ty : String) (ev2 : MoveEvent),
          dispatchDoc (endMove s2) ty ev2 = endMove s2) :=
  ⟨rfl, rfl, rfl, handleMove_sets_position_and_endMove_clean dragState dragInfo
    sampleElem evC8 (9, 12) rfl rfl rfl⟩

/-! ### C9 — closing the focused window transfers focus -/

/-- C9: closing the currently focused window leaves `activeWindow` equal to
the last remaining registry record's element (insertion order), or none when
no window remains: `activeWindow` is cleared and, when the spliced registry is
non-empty, its last record's element is activated. -/
theorem closeWindow_focused_transfers_focus (s : WMState) (eid : Nat)
    (hfoc : s.activeWindow = some eid) :
    (closeWindow s eid).activeWindow
      = (removeWindowRec s.windows eid).getLast?.map WindowRec.elemId := by
  unfold closeWindow
  dsimp only
  have hcond : (removeAndDetach s eid).activeWindow = some eid := by
    rw [removeAndDetach_activeWindow]
    exact hfoc
  rw [if_pos hcond]
  have hw : ({ removeAndDetach s eid with activeWindow := none } : WMState).windows
      = removeWindowRec s.windows eid := removeAndDetach_windows s eid
  rw [hw]
  cases hgl : (removeWindowRec s.windows eid).getLast? with
  | none => rfl
  | some w =>
    rw [activateWindow_activeWindow]
    rfl

theorem closeWindow_focused_transfers_focus_witness :
    twoWinState.activeWindow = some 1
    ∧ (closeWindow twoWinState 1).activeWindow
      = (removeWindowRec twoWinState.windows 1).getLast?.map WindowRec.elemId :=
  ⟨rfl, closeWindow_focused_transfers_focus twoWinState 1 rfl⟩

/-! ### C10 — closing an unfocused window changes nothing else -/

/-- C10: closing a window that is not the focused one only removes that
window's registry record and detaches its element: `activeWindow`,
`maxZIndex` and the drag record keep their values, and every other element —
its stacking value and inactive marker included — is exactly unchanged. -/
theorem closeWindow_unfocused_frame (s : WMState) (eid : Nat)
    (h : s.activeWindow ≠ some eid) :
    (closeWindow s eid).activeWindow = s.activeWindow
    ∧ (closeWindow s eid).maxZIndex = s.maxZIndex
    ∧ (closeWindow s eid).currentMove = s.currentMove
    ∧ (closeWindow s eid).windows = removeWindowRec s.windows eid
    ∧ ∀ x, x ≠ eid → (closeWindow s eid).dom x = s.dom x := by
  have hcw : closeWindow s eid = removeAndDetach s eid := by
    unfold closeWindow
    dsimp only
    rw [if_neg]
    rw [removeAndDetach_activeWindow]
    exact h
  rw [hcw]
  refine ⟨removeAndDetach_activeWindow s eid, removeAndDetach_maxZIndex s eid,
    removeAndDetach_currentMove s eid, removeAndDetach_windows s eid, ?_⟩
  intro x hx
  exact removeAndDetach_dom_ne s eid x hx

theorem closeWindow_unfocused_frame_witness :
    twoWinState.activeWindow ≠ some 0
    ∧ ((closeWindow twoWinState 0).activeWindow = twoWinState.activeWindow
      ∧ (closeWindow twoWinState 0).maxZIndex = twoWinState.maxZIndex
      ∧ (closeWindow twoWinState 0).currentMove = twoWinState.currentMove
      ∧ (closeWindow twoWinState 0).windows = removeWindowRec twoWinState.windows 0
      ∧ ∀ x, x ≠ 0 → (closeWindow twoWinState 0).dom x = twoWinState.dom x) :=
  ⟨by decide, closeWindow_unfocused_frame twoWinState 0 (by decide)⟩
